import Mathlib

/-!
Verification development for the AI-infrastructure analysis backend
(training modules with quiz scoring, chat responder with intent
classification, TCO/ROI financial calculators, market-data provider).

Python dictionaries are modelled as association lists (`List (String × α)`)
with the source's insert-or-overwrite update semantics; Python floats are
modelled as exact rationals (`ℚ`); fallible code paths (raised exceptions)
are modelled as explicit outcome constructors.
-/

/-- Dictionary lookup (`d.get(k)` / `d[k]`). -/
def lookupA {α : Type} : List (String × α) → String → Option α
  | [], _ => none
  | (k', v) :: rest, k => if k' = k then some v else lookupA rest k

/-- Dictionary write `d[k] = v`: replaces the value in place when the key is
present (keeping its position, as a Python dict does), appends otherwise. -/
def insertA {α : Type} : List (String × α) → String → α → List (String × α)
  | [], k, v => [(k, v)]
  | (k', v') :: rest, k, v =>
    if k' = k then (k, v) :: rest else (k', v') :: insertA rest k v

namespace Training

/-- One quiz question, as in the training catalog: prompt, option labels,
index of the correct option, explanation text. -/
structure QuizQuestion where
  question : String
  options : List String
  correct : Nat
  explanation : String
deriving DecidableEq

/-- One lesson (`{"id": ..., "title": ..., "content": ..., "quiz": [...]}`).
The markdown `content` string is elided: no operation modelled here reads it. -/
structure Lesson where
  id : String
  title : String
  quiz : List QuizQuestion
deriving DecidableEq

/-- One training module. -/
structure TrainingModule where
  title : String
  description : String
  lessons : List Lesson
deriving DecidableEq

/-- Lesson `gpu_1` of module `gpu_fundamentals`. -/
def gpu_1_lesson : Lesson :=
  { id := "gpu_1", title := "Introduction to AI GPUs",
    quiz :=
      [{ question := "Why are GPUs better than CPUs for AI training?",
         options := ["Higher clock speed", "Massive parallelism for matrix operations",
                     "Lower power consumption", "Simpler programming model"],
         correct := 1,
         explanation := "GPUs have thousands of cores optimized for parallel matrix operations, which are fundamental to neural network computations." },
       { question := "What does TFLOPS measure?",
         options := ["Memory capacity", "Power consumption",
                     "Floating-point operations per second", "Data transfer speed"],
         correct := 2,
         explanation := "TFLOPS (Trillion FLOPS) measures computational throughput - how many floating-point operations the GPU can perform per second." }] }

/-- Lesson `gpu_2` of module `gpu_fundamentals`. -/
def gpu_2_lesson : Lesson :=
  { id := "gpu_2", title := "NVIDIA Datacenter GPUs",
    quiz :=
      [{ question := "Which architecture introduced the Transformer Engine?",
         options := ["Ampere", "Hopper", "Blackwell", "Volta"],
         correct := 1,
         explanation := "The Transformer Engine was introduced with the Hopper architecture (H100), providing optimized performance for transformer-based models." }] }

/-- Lesson `tco_1` of module `tco_modeling`. -/
def tco_1_lesson : Lesson :=
  { id := "tco_1", title := "TCO Components",
    quiz :=
      [{ question := "What does PUE stand for?",
         options := ["Power Unit Efficiency", "Power Usage Effectiveness",
                     "Processing Unit Energy", "Parallel Utilization Efficiency"],
         correct := 1,
         explanation := "PUE (Power Usage Effectiveness) measures datacenter efficiency - total facility power divided by IT equipment power. A PUE of 1.3 means 30% overhead." },
       { question := "If an H100 has 700W TDP and runs 24/7, what's the annual kWh consumption?",
         options := ["5,000 kWh", "6,132 kWh", "8,760 kWh", "10,000 kWh"],
         correct := 1,
         explanation := "700W × 8,760 hours = 6,132 kWh per year (not including PUE overhead)" }] }

/-- Lesson `tco_2` of module `tco_modeling`. -/
def tco_2_lesson : Lesson :=
  { id := "tco_2", title := "Build vs Buy Analysis",
    quiz :=
      [{ question := "At what utilization rate does on-premise typically become more cost-effective?",
         options := ["20-30%", "40-50%", "70%+", "90%+"],
         correct := 2,
         explanation := "Generally, on-premise infrastructure becomes more cost-effective above 70% utilization, when the fixed costs are spread across substantial usage." }] }

/-- Lesson `neo_1` of module `neocloud_economics`. -/
def neo_1_lesson : Lesson :=
  { id := "neo_1", title := "Neocloud Business Models",
    quiz :=
      [{ question := "What differentiates neoclouds from hyperscalers?",
         options := ["Lower prices", "GPU/AI infrastructure specialization",
                     "More datacenters", "Better customer support"],
         correct := 1,
         explanation := "Neoclouds specialize in GPU/AI infrastructure, offering purpose-built solutions rather than general-purpose cloud services." }] }

/-- Lesson `bbg_1` of module `bloomberg_integration`. -/
def bbg_1_lesson : Lesson :=
  { id := "bbg_1", title := "Bloomberg API Overview",
    quiz :=
      [{ question := "What port does Bloomberg Desktop API use?",
         options := ["8080", "8194", "443", "3000"],
         correct := 1,
         explanation := "Bloomberg Desktop API listens on port 8194 by default." }] }

/-- The fixed training catalog built at service construction
(the source's module-initialisation method). -/
def trainingModules : List (String × TrainingModule) :=
  [("gpu_fundamentals",
    { title := "GPU Architecture Fundamentals",
      description := "Learn about GPU architectures for AI/ML workloads",
      lessons := [gpu_1_lesson, gpu_2_lesson] }),
   ("tco_modeling",
    { title := "TCO Modeling for GPU Infrastructure",
      description := "Master total cost of ownership calculations",
      lessons := [tco_1_lesson, tco_2_lesson] }),
   ("neocloud_economics",
    { title := "Neocloud Provider Economics",
      description := "Analyze GPU cloud provider business models",
      lessons := [neo_1_lesson] }),
   ("bloomberg_integration",
    { title := "Bloomberg Terminal Integration",
      description := "Learn to integrate Bloomberg data feeds",
      lessons := [bbg_1_lesson] })]

/-- A stored progress record: `{"score": ..., "completed": True}`. -/
structure ProgressEntry where
  score : ℚ
  completed : Bool
deriving DecidableEq

/-- The service state: the (fixed) module catalog plus the mutable
per-user progress map `user_progress[user_id][key] = entry`. -/
structure TrainingState where
  modules : List (String × TrainingModule)
  user_progress : List (String × List (String × ProgressEntry))
deriving DecidableEq

/-- The state of a freshly constructed service. -/
def initialState : TrainingState := { modules := trainingModules, user_progress := [] }

/-- `get_lesson`: resolve the module id, then scan its lessons for the
lesson id; `none` when either fails. -/
def get_lesson (modules : List (String × TrainingModule)) (module_id lesson_id : String) :
    Option Lesson :=
  match lookupA modules module_id with
  | none => none
  | some m => m.lessons.find? (fun l => l.id = lesson_id)

/-- One per-question entry of the `results` list returned by `submit_quiz`. -/
structure QuizResultEntry where
  question : String
  your_answer : String
  correct_answer : String
  is_correct : Bool
  explanation : String
deriving DecidableEq

/-- The successful return value of `submit_quiz`. -/
structure QuizResult where
  score : ℚ
  correct : Nat
  total : Nat
  results : List QuizResultEntry
  passed : Bool
deriving DecidableEq

/-- Outcome of `submit_quiz`. The two error dictionaries of the source are
the first two constructors; `indexError` models the exception Python would
raise when a question's `correct` index exceeds its option count (which the
catalog never does). -/
inductive SubmitOutcome where
  | lessonNotFound
  | answerCountMismatch
  | indexError
  | ok (r : QuizResult)
deriving DecidableEq

/-- The grading loop of `submit_quiz` over `zip(answers, quiz)`: builds the
per-question result entries and the count of correct answers. Submitted
answers are Python ints (possibly negative); an out-of-range submitted index
gets the label `"Invalid"`. Returns `none` when a question's own `correct`
index is out of range (Python would raise there). -/
def gradeList : List (Int × QuizQuestion) → Option (List QuizResultEntry × Nat)
  | [] => some ([], 0)
  | (a, q) :: rest =>
    match q.options.get? q.correct with
    | none => none
    | some correctLabel =>
      match gradeList rest with
      | none => none
      | some (entries, c) =>
        let isCorrect : Bool := a = (q.correct : Int)
        some ({ question := q.question,
                your_answer :=
                  if 0 ≤ a ∧ a < (q.options.length : Int) then
                    q.options.getD a.toNat ""
                  else "Invalid",
                correct_answer := correctLabel,
                is_correct := isCorrect,
                explanation := q.explanation } :: entries,
              (if isCorrect then 1 else 0) + c)

/-- `submit_quiz`: validates the lesson lookup and the answer count, grades,
computes `score = (correct / len(quiz)) * 100 if quiz else 0` and
`passed = score >= 70`, and overwrites the user's progress entry under the
key `f"{module_id}_{lesson_id}"`. Returns the outcome and the state after
the call. -/
def submit_quiz (st : TrainingState) (module_id lesson_id : String)
    (answers : List Int) (user_id : String) : SubmitOutcome × TrainingState :=
  match get_lesson st.modules module_id lesson_id with
  | none => (.lessonNotFound, st)
  | some lesson =>
    if answers.length ≠ lesson.quiz.length then (.answerCountMismatch, st)
    else
      match gradeList (answers.zip lesson.quiz) with
      | none => (.indexError, st)
      | some (results, correct_count) =>
        let score : ℚ :=
          if lesson.quiz.isEmpty then 0
          else ((correct_count : ℚ) / (lesson.quiz.length : ℚ)) * 100
        let userMap := (lookupA st.user_progress user_id).getD []
        let userMap' := insertA userMap (module_id ++ "_" ++ lesson_id)
          { score := score, completed := true }
        (.ok { score := score, correct := correct_count, total := lesson.quiz.length,
               results := results, passed := decide (score ≥ 70) },
         { st with user_progress := insertA st.user_progress user_id userMap' })

/-- The score `submit_quiz` computes from a correct-answer count:
`(correct_count / len(quiz)) * 100 if quiz else 0`. -/
def scoreOf (lesson : Lesson) (cnt : Nat) : ℚ :=
  if lesson.quiz.isEmpty then 0 else ((cnt : ℚ) / (lesson.quiz.length : ℚ)) * 100

/-- The summary returned by `get_user_progress`. -/
structure ProgressSummary where
  user_id : String
  completed_lessons : Nat
  total_lessons : Nat
  completion_percent : ℚ
  average_score : ℚ
  lesson_details : List (String × ProgressEntry)
deriving DecidableEq

/-- `get_user_progress`: rollup of the stored per-lesson records. -/
def get_user_progress (st : TrainingState) (user_id : String) : ProgressSummary :=
  let progress := (lookupA st.user_progress user_id).getD []
  let total_lessons := (st.modules.map (fun p => p.2.lessons.length)).sum
  let completed_lessons := progress.length
  { user_id := user_id,
    completed_lessons := completed_lessons,
    total_lessons := total_lessons,
    completion_percent :=
      if total_lessons = 0 then 0
      else ((completed_lessons : ℚ) / (total_lessons : ℚ)) * 100,
    average_score :=
      if progress.isEmpty then 0
      else (progress.map (fun p => p.2.score)).sum / (progress.length : ℚ),
    lesson_details := progress }

end Training

namespace AIAgent

/-- One GPU entry of the knowledge base (`gpu_architectures`). -/
structure GpuSpec where
  manufacturer : String
  process : String
  memory : String
  tdp : ℚ
  fp16_tflops : ℚ
  price_estimate : ℚ
deriving DecidableEq

/-- The `gpu_architectures` table of the knowledge base. -/
def gpu_architectures : List (String × GpuSpec) :=
  [("H100", { manufacturer := "NVIDIA", process := "4nm", memory := "80GB HBM3",
              tdp := 700, fp16_tflops := 1979, price_estimate := 30000 }),
   ("H200", { manufacturer := "NVIDIA", process := "4nm", memory := "141GB HBM3e",
              tdp := 700, fp16_tflops := 1979, price_estimate := 40000 }),
   ("MI300X", { manufacturer := "AMD", process := "5nm", memory := "192GB HBM3",
                tdp := 750, fp16_tflops := 1307, price_estimate := 15000 }),
   ("B200", { manufacturer := "NVIDIA", process := "4nm", memory := "192GB HBM3e",
              tdp := 1000, fp16_tflops := 4500, price_estimate := 40000 })]

/-- The `tco_factors` table of the knowledge base. -/
structure TcoFactors where
  power_cost_kwh : ℚ
  pue : ℚ
  cooling_overhead : ℚ
  maintenance_percent : ℚ
  depreciation_years : ℚ
  utilization_target : ℚ
deriving DecidableEq

def tco_factors : TcoFactors :=
  { power_cost_kwh := 0.08, pue := 1.3, cooling_overhead := 0.15,
    maintenance_percent := 0.08, depreciation_years := 3, utilization_target := 0.85 }

/-- One neocloud provider entry of the knowledge base. -/
structure Provider where
  focus : String
  gpu_types : List String
deriving DecidableEq

def neocloud_providers : List (String × Provider) :=
  [("CoreWeave", { focus := "GPU cloud", gpu_types := ["H100", "A100"] }),
   ("Lambda Labs", { focus := "ML cloud", gpu_types := ["H100", "A100"] }),
   ("Together AI", { focus := "Inference", gpu_types := ["H100"] }),
   ("Crusoe", { focus := "Clean energy", gpu_types := ["H100", "A100"] })]

/-- ASCII lower-casing of one character (the messages classified here are
ASCII, where Python's `str.lower()` agrees with this). -/
def lowerChar (c : Char) : Char :=
  if 65 ≤ c.toNat ∧ c.toNat ≤ 90 then Char.ofNat (c.toNat + 32) else c

/-- `message.lower()`. -/
def lowerStr (s : String) : String := String.mk (s.toList.map lowerChar)

/-- Whether the first character list is a prefix of the second. -/
def listIsPrefix : List Char → List Char → Bool
  | [], _ => true
  | _ :: _, [] => false
  | a :: as, b :: bs => a == b && listIsPrefix as bs

/-- Whether the first character list occurs contiguously inside the second. -/
def listIsSub (p : List Char) : List Char → Bool
  | [] => p.isEmpty
  | c :: cs => listIsPrefix p (c :: cs) || listIsSub p cs

/-- Python's substring test `w in s`. -/
def containsWord (s w : String) : Bool := listIsSub w.toList s.toList

def kwTco : List String := ["tco", "cost", "expense", "budget", "pricing"]
def kwComparison : List String := ["compare", "vs", "versus", "difference", "better"]
def kwMarket : List String := ["market", "stock", "price", "bloomberg", "equity"]
def kwNeocloud : List String := ["neocloud", "coreweave", "lambda", "together", "cloud provider"]

/-- The intent classifier: lower-cases the message and tests each keyword of
five fixed sets for occurrence in the message (Python's `word in message_lower`
substring test), first matching set winning in the source's if/elif order. -/
def _analyze_intent (message : String) : String :=
  let ml := lowerStr message
  if kwTco.any (containsWord ml) then "tco_calculation"
  else if kwComparison.any (containsWord ml) then "gpu_comparison"
  else if kwMarket.any (containsWord ml) then "market_data"
  else if kwNeocloud.any (containsWord ml) then "neocloud_analysis"
  else "general"

/-- Whitespace tokenisation (Python's `str.split()`), structurally recursive. -/
def splitTokens : List Char → List Char → List String
  | [], cur => if cur.isEmpty then [] else [String.mk cur.reverse]
  | c :: rest, cur =>
    if c = ' ' then
      if cur.isEmpty then splitTokens rest []
      else String.mk cur.reverse :: splitTokens rest []
    else splitTokens rest (c :: cur)

/-- The spec's description of the classifier, taken at its word for the
refinement comparison: split the lower-cased message into whitespace tokens
and test membership of those tokens in the same five keyword sets, in the
same priority order. -/
def intent_by_token_membership (message : String) : String :=
  let ts := splitTokens (lowerStr message).toList []
  if ts.any (fun t => t ∈ kwTco) then "tco_calculation"
  else if ts.any (fun t => t ∈ kwComparison) then "gpu_comparison"
  else if ts.any (fun t => t ∈ kwMarket) then "market_data"
  else if ts.any (fun t => t ∈ kwNeocloud) then "neocloud_analysis"
  else "general"

/-- The priority-ordered keyword table of the classifier. -/
def intentTable : List (List String × String) :=
  [(kwTco, "tco_calculation"), (kwComparison, "gpu_comparison"),
   (kwMarket, "market_data"), (kwNeocloud, "neocloud_analysis")]

/-- First keyword set with a member occurring in the lower-cased message
wins; `"general"` when none matches. -/
def firstMatch (ml : String) : List (List String × String) → String
  | [] => "general"
  | (kws, label) :: rest =>
    if kws.any (containsWord ml) then label else firstMatch ml rest

/-- The classifier restated as a first-match scan over the priority-ordered
keyword table, using the same substring test (the amended reading of the
spec sentence). -/
def intent_by_substring (message : String) : String :=
  firstMatch (lowerStr message) intentTable

/-! Number rendering for the chat response strings. Python renders IEEE-754
doubles; the helpers below render the exact rationals instead (same output
for every value actually interpolated by these handlers), and round half-up
where Python's `round`/format rounds the nearest double half-to-even. -/

/-- Insert thousands separators into a reversed digit list. -/
def commaRev : List Char → Nat → List Char
  | [], _ => []
  | c :: cs, i =>
    if i ≠ 0 ∧ i % 3 = 0 then c :: ',' :: commaRev cs (i + 1)
    else c :: commaRev cs (i + 1)

/-- A nonnegative integer with thousands separators. -/
def fmtNatCommas (n : Nat) : String :=
  String.mk ((commaRev (toString n).toList.reverse 0).reverse)

/-- Python's `f"{q:,.0f}"` for the nonnegative values used here. -/
def fmtQComma0 (q : ℚ) : String := fmtNatCommas (round q).toNat

/-- Python's `f"{q:.2f}"` for the nonnegative values used here. -/
def fmtQ2 (q : ℚ) : String :=
  let c := (round (q * 100)).toNat
  toString (c / 100) ++ "." ++ (if c % 100 < 10 then "0" else "") ++ toString (c % 100)

/-- Decimal digits of a proper fraction `rem/d`, stopping when exact. -/
def fracDigits : Nat → Nat → Nat → List Char
  | 0, _, _ => []
  | _ + 1, 0, _ => []
  | fuel + 1, rem, d =>
    Char.ofNat (48 + rem * 10 / d) :: fracDigits fuel (rem * 10 % d) d

/-- Python's `str(float)` for the nonnegative finite-decimal values used here
(always shows at least one decimal digit, e.g. `85.0`). -/
def fmtFloat (q : ℚ) : String :=
  let n := q.num.toNat
  let d := q.den
  let frac := fracDigits 20 (n % d) d
  toString (n / d) ++ "." ++ (if frac.isEmpty then "0" else String.mk frac)

/-- Python's `str(int)` for the integral knowledge-base values used here. -/
def fmtInt (q : ℚ) : String := toString q.num

/-- Python's `round(q, 2)`. -/
def round2 (q : ℚ) : ℚ := ((round (q * 100) : ℤ) : ℚ) / 100

/-- One row of the comparison generator's table. -/
structure GpuCompareRow where
  name : String
  memory : String
  tdp : ℚ
  fp16_tflops : ℚ
  price : ℚ
  perf_per_dollar : ℚ
deriving DecidableEq

/-- The structured `data` payload of a chat response, one shape per handler. -/
inductive ChatData where
  | tco (capex annual_power annual_maintenance total_tco cost_per_gpu_hour : ℚ)
  | comparison (table : List GpuCompareRow)
  | market (gpu_tickers datacenter_tickers : List String)
  | neocloud (providers : List (String × Provider))
  | empty
deriving DecidableEq

/-- A chat handler's return value `{response, data, intent}`. -/
structure ChatResponse where
  response : String
  data : ChatData
  intent : String
deriving DecidableEq

/-- The TCO handler: a fixed illustrative 8×H100 scenario; the message is
never parsed for parameters. -/
def _handle_tco_query (_message : String) : ChatResponse :=
  let factors := tco_factors
  let gpu_price : ℚ := 30000
  let num_gpus : ℚ := 8
  let hours_per_year : ℚ := 8760
  let capex := gpu_price * num_gpus
  let power_cost := (700 * num_gpus * hours_per_year * factors.pue / 1000) * factors.power_cost_kwh
  let maintenance := capex * factors.maintenance_percent
  let total_tco := capex + (power_cost + maintenance) * factors.depreciation_years
  let tco_per_gpu_hour := total_tco / (num_gpus * hours_per_year * factors.depreciation_years)
  { response :=
      "Based on our TCO model, here's a breakdown for an 8x H100 cluster:\n\n" ++
      "**Capital Expenditure:** $" ++ fmtQComma0 capex ++ "\n" ++
      "**Annual Power Cost:** $" ++ fmtQComma0 power_cost ++
        " (at $" ++ fmtFloat factors.power_cost_kwh ++ "/kWh, PUE " ++ fmtFloat factors.pue ++ ")\n" ++
      "**Annual Maintenance:** $" ++ fmtQComma0 maintenance ++
        " (" ++ fmtFloat (factors.maintenance_percent * 100) ++ "% of CAPEX)\n\n" ++
      "**3-Year Total TCO:** $" ++ fmtQComma0 total_tco ++ "\n" ++
      "**Cost per GPU-Hour:** $" ++ fmtQ2 tco_per_gpu_hour ++ "\n\n" ++
      "Key assumptions:\n" ++
      "- " ++ fmtInt factors.depreciation_years ++ "-year depreciation\n" ++
      "- " ++ fmtFloat (factors.utilization_target * 100) ++ "% utilization target\n" ++
      "- 700W TDP per H100\n\n" ++
      "Want me to adjust any parameters for a custom scenario?",
    data := .tco capex power_cost maintenance total_tco tco_per_gpu_hour,
    intent := "tco_calculation" }

/-- The comparison handler: performance-per-dollar table over the whole
knowledge base, stable-sorted descending by that ratio. -/
def _handle_gpu_comparison (_message : String) : ChatResponse :=
  let table := gpu_architectures.map fun p =>
    { name := p.1, memory := p.2.memory, tdp := p.2.tdp,
      fp16_tflops := p.2.fp16_tflops, price := p.2.price_estimate,
      perf_per_dollar := round2 (p.2.fp16_tflops / (p.2.price_estimate / 1000)) :
      GpuCompareRow }
  let sorted := table.mergeSort (fun a b => b.perf_per_dollar ≤ a.perf_per_dollar)
  let rows := sorted.foldl (fun acc g =>
    acc ++ "| " ++ g.name ++ " | " ++ g.memory ++ " | " ++ fmtInt g.tdp ++ "W | " ++
    fmtInt g.fp16_tflops ++ " | $" ++ fmtNatCommas g.price.num.toNat ++ " | " ++
    fmtFloat g.perf_per_dollar ++ " |\n") ""
  { response :=
      "**GPU Comparison for AI Training:**\n\n" ++
      "| GPU | Memory | TDP | FP16 TFLOPS | Est. Price | Perf/$ |\n" ++
      "|-----|--------|-----|-------------|------------|--------|\n" ++
      rows ++
      "\n*Performance per dollar = FP16 TFLOPS per $1000*",
    data := .comparison sorted,
    intent := "gpu_comparison" }

/-- The market handler: static guidance plus fixed ticker lists. -/
def _handle_market_query (_message : String) : ChatResponse :=
  { response :=
      "For real-time market data, please ensure Bloomberg Terminal integration is configured.\n\n" ++
      "You can access:\n" ++
      "- **GPU Companies:** NVDA, AMD, INTC, TSM, AVGO\n" ++
      "- **Datacenter REITs:** EQIX, DLR, AMT, CCI\n\n" ++
      "Use the Bloomberg API endpoints to fetch current prices, market caps, and financial metrics.\n\n" ++
      "Would you like me to explain how to set up the Bloomberg connection?",
    data := .market ["NVDA", "AMD", "INTC", "TSM", "AVGO"] ["EQIX", "DLR", "AMT", "CCI"],
    intent := "market_data" }

/-- The neocloud handler: renders each provider of the knowledge base. -/
def _handle_neocloud_query (_message : String) : ChatResponse :=
  let providers := neocloud_providers
  let body := providers.foldl (fun acc p =>
    acc ++ "**" ++ p.1 ++ "**\n" ++
    "- Focus: " ++ p.2.focus ++ "\n" ++
    "- Available GPUs: " ++ String.intercalate ", " p.2.gpu_types ++ "\n\n") ""
  { response :=
      "**Neocloud Provider Overview:**\n\n" ++ body ++
      "\n**Key Differentiators:**\n" ++
      "- CoreWeave: Kubernetes-native, competitive pricing\n" ++
      "- Lambda Labs: Developer-focused, simple API\n" ++
      "- Together AI: Optimized for inference workloads\n" ++
      "- Crusoe: Sustainable energy focus\n\n" ++
      "Would you like a detailed pricing comparison or availability analysis?",
    data := .neocloud providers,
    intent := "neocloud_analysis" }

/-- The general handler: fixed capability summary. -/
def _handle_general_query (_message : String) : ChatResponse :=
  { response :=
      "I can help you with:\n\n" ++
      "1. **TCO Calculations** - Calculate total cost of ownership for GPU clusters\n" ++
      "2. **GPU Comparisons** - Compare H100, H200, MI300X, B200 specifications\n" ++
      "3. **Market Data** - Access Bloomberg data for GPU and datacenter stocks\n" ++
      "4. **Neocloud Analysis** - Analyze cloud GPU providers\n\n" ++
      "What would you like to explore?",
    data := .empty,
    intent := "general" }

/-- `chat(message, context)`: classifies the message and dispatches to a
handler. The optional prior-turn `context` argument (a list of message
dictionaries in the source) is accepted but never read by the body. -/
def chat (message : String) (_context : Option (List (List (String × String)))) : ChatResponse :=
  let intent := _analyze_intent message
  if intent = "tco_calculation" then _handle_tco_query message
  else if intent = "gpu_comparison" then _handle_gpu_comparison message
  else if intent = "market_data" then _handle_market_query message
  else if intent = "neocloud_analysis" then _handle_neocloud_query message
  else _handle_general_query message

/-- The parameters dictionary passed to `run_scenario`; every key optional,
missing keys fall back to the documented defaults at use sites. -/
structure ScenarioParams where
  gpu_type : Option String
  num_gpus : Option ℚ
  power_rate : Option ℚ
  years : Option ℚ
  investment : Option ℚ
  hourly_rate : Option ℚ
  utilization : Option ℚ
deriving DecidableEq

/-- `params` with every key absent. -/
def noParams : ScenarioParams := ⟨none, none, none, none, none, none, none⟩

/-- The looked-up (or default 30000 USD) GPU price used by the custom TCO. -/
def gpu_price_of (p : ScenarioParams) : ℚ :=
  ((lookupA gpu_architectures (p.gpu_type.getD "H100")).map GpuSpec.price_estimate).getD 30000

/-- The looked-up (or default 700 W) TDP used by the custom TCO. -/
def tdp_of (p : ScenarioParams) : ℚ :=
  ((lookupA gpu_architectures (p.gpu_type.getD "H100")).map GpuSpec.tdp).getD 700

/-- The result dictionary of `_calculate_custom_tco`. -/
structure TcoResult where
  gpu_type : String
  num_gpus : ℚ
  capex : ℚ
  annual_power : ℚ
  annual_maintenance : ℚ
  total_tco : ℚ
  tco_per_gpu_hour : ℚ
deriving DecidableEq

/-- `_calculate_custom_tco`: knowledge-base lookup with silent defaulting of
unknown GPU types, then the capex/power/maintenance/total formulas; the
final `tco_per_gpu_hour` division raises `ZeroDivisionError` in the source
when `num_gpus * 8760 * years` is zero (the whole result dictionary is then
never built), modelled as the explicit error outcome. -/
def _calculate_custom_tco (params : ScenarioParams) : Except String TcoResult :=
  let gpu_type := params.gpu_type.getD "H100"
  let num_gpus := params.num_gpus.getD 8
  let power_rate := params.power_rate.getD 0.08
  let years := params.years.getD 3
  let gpu_price := gpu_price_of params
  let tdp := tdp_of params
  let capex := gpu_price * num_gpus
  let annual_power := (tdp * num_gpus * 8760 * 1.3 / 1000) * power_rate
  let annual_maintenance := capex * 0.08
  let total_tco := capex + (annual_power + annual_maintenance) * years
  if num_gpus * 8760 * years = 0 then .error "ZeroDivisionError"
  else
    .ok { gpu_type := gpu_type, num_gpus := num_gpus, capex := capex,
          annual_power := annual_power, annual_maintenance := annual_maintenance,
          total_tco := total_tco,
          tco_per_gpu_hour := total_tco / (num_gpus * 8760 * years) }

/-- Payback horizon: finite months, or the source's `float('inf')` sentinel. -/
inductive Payback where
  | months (m : ℚ)
  | infinite
deriving DecidableEq

/-- The result dictionary of `_calculate_roi`. -/
structure RoiResult where
  investment : ℚ
  annual_revenue : ℚ
  annual_costs : ℚ
  annual_profit : ℚ
  roi_percent : ℚ
  payback_months : Payback
deriving DecidableEq

/-- `_calculate_roi`: revenue/cost/profit formulas; the `roi_percent`
division raises `ZeroDivisionError` in the source when the (defaulted)
investment is zero (the result dictionary is then never built), modelled as
the explicit error outcome; otherwise the result carries the infinite
payback sentinel exactly when `annual_profit > 0` fails. -/
def _calculate_roi (params : ScenarioParams) : Except String RoiResult :=
  let investment := params.investment.getD 240000
  let hourly_rate := params.hourly_rate.getD 3.5
  let utilization := params.utilization.getD 0.85
  let num_gpus := params.num_gpus.getD 8
  let annual_revenue := hourly_rate * num_gpus * 8760 * utilization
  let annual_costs := investment * 0.4
  let annual_profit := annual_revenue - annual_costs
  if investment = 0 then .error "ZeroDivisionError"
  else
    .ok { investment := investment, annual_revenue := annual_revenue,
          annual_costs := annual_costs, annual_profit := annual_profit,
          roi_percent := (annual_profit / investment) * 100,
          payback_months :=
            if annual_profit > 0 then .months ((investment / annual_profit) * 12)
            else .infinite }

/-- Outcome of `run_scenario`. -/
inductive ScenarioResult where
  | tco (r : TcoResult)
  | roi (r : RoiResult)
  | unknownScenario (scenario_type : String)
deriving DecidableEq

/-- `run_scenario`: dispatch on the scenario type string; a
`ZeroDivisionError` raised inside a calculator propagates out unhandled,
while an unknown scenario type is an ordinarily returned error dictionary. -/
def run_scenario (scenario_type : String) (params : ScenarioParams) :
    Except String ScenarioResult :=
  if scenario_type = "tco" then (_calculate_custom_tco params).map .tco
  else if scenario_type = "roi" then (_calculate_roi params).map .roi
  else .ok (.unknownScenario scenario_type)

end AIAgent

namespace Bloomberg

/-- A reference-data result: security → (field → string value). -/
def RefData := List (String × List (String × String))
deriving instance DecidableEq for RefData

/-- Value of one field of a mock historical point. -/
inductive MockFieldValue where
  | price (q : ℚ)
  | volume (n : ℤ)
deriving DecidableEq

/-- One point of a historical series. -/
structure HistPoint where
  date : String
  values : List (String × MockFieldValue)
deriving DecidableEq

/-- The live blpapi feed, present exactly when the optional `blpapi`
dependency imported; its behaviour is external to this repository, so it is
an oracle: handshake outcomes plus request functions that either return data
or fail with an exception message. -/
structure LiveFeed where
  startOk : Bool
  openOk : Bool
  refData : List String → List String → Except String RefData
  histData : String → List String → String → String → Except String (List HistPoint)

/-- Service state: the `_connected` flag, the live feed when `blpapi` is
available (`none` models the mock mode), and an oracle stream for the mock
historical generator's unseeded randomness (`k`-th business day ↦ the
uniform draw and the volume draw). -/
structure BloombergService where
  connected : Bool
  live : Option LiveFeed
  rng : Nat → ℚ × ℤ

/-- `is_connected`. -/
def is_connected (s : BloombergService) : Bool := s.connected

/-- `connect()`: always succeeds in mock mode; in live mode succeeds exactly
when both handshake steps do, leaving `_connected` untouched on failure. -/
def connect (s : BloombergService) : Bool × BloombergService :=
  match s.live with
  | none => (true, { s with connected := true })
  | some feed =>
    if feed.startOk && feed.openOk then (true, { s with connected := true })
    else (false, s)

/-- `disconnect()`. -/
def disconnect (s : BloombergService) : BloombergService := { s with connected := false }

/-- Outcome of a data request. `notConnected` is the guard's
`ConnectionError("Not connected to Bloomberg")`; `liveError` re-raises an
exception of the live path; `valueError` is the mock historical generator's
date-parse failure. -/
inductive BbOutcome (α : Type) where
  | ok (v : α)
  | notConnected
  | liveError (msg : String)
  | valueError

/-- The fixed mock reference-data table (7 securities). -/
def mock_data : RefData :=
  [("NVDA US Equity",
    [("PX_LAST", "875.28"), ("CHG_PCT_1D", "2.34"), ("CUR_MKT_CAP", "2150000000000"),
     ("PE_RATIO", "65.2"), ("BEST_EPS_1YR", "13.42"), ("NAME", "NVIDIA Corp")]),
   ("AMD US Equity",
    [("PX_LAST", "178.45"), ("CHG_PCT_1D", "1.82"), ("CUR_MKT_CAP", "288000000000"),
     ("PE_RATIO", "48.7"), ("BEST_EPS_1YR", "3.66"), ("NAME", "Advanced Micro Devices Inc")]),
   ("INTC US Equity",
    [("PX_LAST", "31.24"), ("CHG_PCT_1D", "-0.45"), ("CUR_MKT_CAP", "132000000000"),
     ("PE_RATIO", "32.1"), ("BEST_EPS_1YR", "0.97"), ("NAME", "Intel Corp")]),
   ("TSM US Equity",
    [("PX_LAST", "142.67"), ("CHG_PCT_1D", "1.12"), ("CUR_MKT_CAP", "740000000000"),
     ("PE_RATIO", "24.8"), ("BEST_EPS_1YR", "5.75"),
     ("NAME", "Taiwan Semiconductor Manufacturing Co Ltd")]),
   ("AVGO US Equity",
    [("PX_LAST", "1324.56"), ("CHG_PCT_1D", "0.89"), ("CUR_MKT_CAP", "615000000000"),
     ("PE_RATIO", "35.6"), ("BEST_EPS_1YR", "37.21"), ("NAME", "Broadcom Inc")]),
   ("EQIX US Equity",
    [("PX_LAST", "812.34"), ("DVD_YLD", "2.1"), ("FUNDS_FROM_OPS", "32.45"),
     ("CUR_MKT_CAP", "76000000000"), ("NAME", "Equinix Inc")]),
   ("DLR US Equity",
    [("PX_LAST", "142.89"), ("DVD_YLD", "3.4"), ("FUNDS_FROM_OPS", "6.78"),
     ("CUR_MKT_CAP", "44000000000"), ("NAME", "Digital Realty Trust Inc")])]

/-- `_get_mock_reference_data`: requested securities absent from the table
are silently omitted; absent fields render as `"N/A"`. -/
def _get_mock_reference_data (securities fields : List String) : RefData :=
  securities.filterMap fun sec =>
    (lookupA mock_data sec).map fun entry =>
      (sec, fields.map fun f => (f, (lookupA entry f).getD "N/A"))

/-- `get_reference_data`: the connected-state guard, then mock table or live
feed. -/
def get_reference_data (s : BloombergService) (securities fields : List String) :
    BbOutcome RefData :=
  if ¬ s.connected then .notConnected
  else
    match s.live with
    | none => .ok (_get_mock_reference_data securities fields)
    | some feed =>
      match feed.refData securities fields with
      | .ok r => .ok r
      | .error e => .liveError e

/-- Gregorian leap year. -/
def isLeap (y : Nat) : Bool := y % 4 = 0 ∧ (y % 100 ≠ 0 ∨ y % 400 = 0)

def daysInMonth (y m : Nat) : Nat :=
  if m = 2 then (if isLeap y then 29 else 28)
  else if m = 4 ∨ m = 6 ∨ m = 9 ∨ m = 11 then 30
  else 31

/-- Validity of a proleptic-Gregorian date as `datetime` accepts it
(year ≥ 1). -/
def validDate (y m d : Nat) : Bool :=
  1 ≤ y ∧ 1 ≤ m ∧ m ≤ 12 ∧ 1 ≤ d ∧ d ≤ daysInMonth y m

/-- Day count since 0000-03-01 of the proleptic Gregorian calendar
(civil-from-days construction), for valid dates with year ≥ 1. -/
def dayNumber : Nat × Nat × Nat → Nat
  | (y, m, d) =>
    let y' := if m ≤ 2 then y - 1 else y
    let era := y' / 400
    let yoe := y' % 400
    let mp := (m + 9) % 12
    let doy := (153 * mp + 2) / 5 + d - 1
    era * 146097 + yoe * 365 + yoe / 4 - yoe / 100 + doy

/-- Python's `date.weekday()`: Monday = 0 … Sunday = 6. -/
def weekday (ymd : Nat × Nat × Nat) : Nat := (dayNumber ymd + 2) % 7

/-- The calendar day after a valid date. -/
def nextDay : Nat × Nat × Nat → Nat × Nat × Nat
  | (y, m, d) =>
    if d < daysInMonth y m then (y, m, d + 1)
    else if m < 12 then (y, m + 1, 1)
    else (y + 1, 1, 1)

/-- `datetime.strptime(s, "%Y%m%d")` on canonical inputs: exactly eight
digits forming a valid date, else a raised `ValueError` (modelled as
`none`). CPython's lenient parser also accepts some shorter digit strings
(e.g. `"2024015"` → 2024-01-05); this model accepts the strict zero-padded
subset, which only shifts the ok / ValueError split for non-canonical
inputs and never the NotConnected guard, which fires before parsing. -/
def parseDate8 (s : String) : Option (Nat × Nat × Nat) :=
  let cs := s.toList
  if cs.length = 8 ∧ cs.all Char.isDigit then
    let dv := fun (c : Char) => c.toNat - 48
    let y := ((cs.take 4).foldl (fun a c => a * 10 + dv c) 0)
    let mo := ((cs.drop 4).take 2).foldl (fun a c => a * 10 + dv c) 0
    let d := ((cs.drop 6).foldl (fun a c => a * 10 + dv c) 0)
    if validDate y mo d then some (y, mo, d) else none
  else none

/-- Zero-padded decimal rendering. -/
def padNum (width n : Nat) : String :=
  let s := toString n
  String.mk (List.replicate (width - s.length) '0') ++ s

/-- `current.strftime("%Y-%m-%d")`. -/
def fmtDate : Nat × Nat × Nat → String
  | (y, m, d) => padNum 4 y ++ "-" ++ padNum 2 m ++ "-" ++ padNum 2 d

/-- The mock historical walk: one iteration per calendar day from the start
date (fuel counts the days up to and including the end date); weekends are
skipped without consuming randomness, business days multiply the base price
by `1 + u` with `u` the oracle's uniform draw and emit the recognised
fields only. -/
def mockWalk (rng : Nat → ℚ × ℤ) (fields : List String) :
    Nat → Nat × Nat × Nat → ℚ → Nat → List HistPoint
  | 0, _, _, _ => []
  | fuel + 1, ymd, base_price, k =>
    if weekday ymd < 5 then
      let price := base_price * (1 + (rng k).1)
      let point : HistPoint :=
        { date := fmtDate ymd,
          values := fields.filterMap fun f =>
            if f = "PX_LAST" then some (f, .price (AIAgent.round2 price))
            else if f = "PX_VOLUME" then some (f, .volume (rng k).2)
            else none }
      point :: mockWalk rng fields fuel (nextDay ymd) price (k + 1)
    else mockWalk rng fields fuel (nextDay ymd) base_price k

/-- `_get_mock_historical_data`: parse both dates (a `ValueError` is
`none`), then walk the inclusive range starting from base price 100.0. -/
def _get_mock_historical_data (rng : Nat → ℚ × ℤ) (_security : String)
    (fields : List String) (start_date end_date : String) : Option (List HistPoint) :=
  match parseDate8 start_date, parseDate8 end_date with
  | some sd, some ed =>
    let fuel := if dayNumber sd ≤ dayNumber ed then dayNumber ed + 1 - dayNumber sd else 0
    some (mockWalk rng fields fuel sd 100 0)
  | _, _ => none

/-- `get_historical_data`: the connected-state guard, then mock generator or
live feed. -/
def get_historical_data (s : BloombergService) (security : String) (fields : List String)
    (start_date end_date : String) : BbOutcome (List HistPoint) :=
  if ¬ s.connected then .notConnected
  else
    match s.live with
    | none =>
      match _get_mock_historical_data s.rng security fields start_date end_date with
      | some pts => .ok pts
      | none => .valueError
    | some feed =>
      match feed.histData security fields start_date end_date with
      | .ok r => .ok r
      | .error e => .liveError e

/-- A disconnected mock-mode service (fresh construction without `blpapi`). -/
def mockDisconnected : BloombergService :=
  { connected := false, live := none, rng := fun _ => (0, 0) }

/-- The same service after `connect()`. -/
def mockConnected : BloombergService := (connect mockDisconnected).2

end Bloomberg

/-- The `run_scenario`/ROI parameters of C3's concrete input:
investment=240000, hourlyRate=3.5, utilization=0.85, gpuCount=8. -/
def roiGivenParams : AIAgent.ScenarioParams :=
  ⟨none, some 8, none, none, some 240000, some 3.5, some 0.85⟩

/-- The training state after a successful `submit_quiz` writes entry `e`
under `key` for user `uid` (the progress-update block of the source). -/
def progressAfter (st : Training.TrainingState) (uid key : String)
    (e : Training.ProgressEntry) : Training.TrainingState :=
  { st with
      user_progress :=
        insertA st.user_progress uid
          (insertA ((lookupA st.user_progress uid).getD []) key e) }

/-! ## Helper lemmas -/

/-- Lookup after an insert-or-overwrite at the same key. -/
theorem lookupA_insertA_self {α : Type} (l : List (String × α)) (k : String) (v : α) :
    lookupA (insertA l k v) k = some v := by
  induction l with
  | nil => simp [insertA, lookupA]
  | cons hd tl ih =>
    obtain ⟨k', v'⟩ := hd
    by_cases h : k' = k
    · subst h
      simp [insertA, lookupA]
    · simp [insertA, lookupA, h, ih]

/-- Overwriting an existing key does not grow the dictionary. -/
theorem insertA_length_of_mem {α : Type} (l : List (String × α)) (k : String) (v w : α)
    (h : lookupA l k = some w) : (insertA l k v).length = l.length := by
  induction l with
  | nil => simp [lookupA] at h
  | cons hd tl ih =>
    obtain ⟨k', v'⟩ := hd
    by_cases hk : k' = k
    · simp [insertA, hk]
    · simp only [lookupA, if_neg hk] at h
      simp [insertA, hk, ih h]

/-- A successful lookup names an entry of the dictionary. -/
theorem lookupA_mem {α : Type} {l : List (String × α)} {k : String} {v : α}
    (h : lookupA l k = some v) : (k, v) ∈ l := by
  induction l with
  | nil => simp [lookupA] at h
  | cons hd tl ih =>
    obtain ⟨k', v'⟩ := hd
    by_cases hk : k' = k
    · subst hk
      simp [lookupA] at h
      subst h
      exact List.mem_cons_self _ _
    · simp only [lookupA, if_neg hk] at h
      exact List.mem_cons_of_mem _ (ih h)

/-- A resolved lesson belongs to the looked-up module. -/
theorem get_lesson_mem {mods : List (String × Training.TrainingModule)}
    {mid lid : String} {l : Training.Lesson}
    (h : Training.get_lesson mods mid lid = some l) :
    ∃ m, (mid, m) ∈ mods ∧ l ∈ m.lessons := by
  unfold Training.get_lesson at h
  cases hm : lookupA mods mid with
  | none => rw [hm] at h; cases h
  | some m =>
    rw [hm] at h
    exact ⟨m, lookupA_mem hm, List.mem_of_find?_eq_some h⟩

/-- Catalog invariant: every question's correct index is within its options. -/
theorem catalog_wf : ∀ p ∈ Training.trainingModules, ∀ l ∈ p.2.lessons,
    ∀ q ∈ l.quiz, q.correct < q.options.length := by decide

/-- Grading succeeds on well-formed questions, returns the count of
correctly answered questions, and produces for every index an entry with
the source's correctness flag and answer label. -/
theorem gradeList_spec (l : List (Int × Training.QuizQuestion))
    (hq : ∀ p ∈ l, p.2.correct < p.2.options.length) :
    ∃ entries : List Training.QuizResultEntry,
      Training.gradeList l =
        some (entries, l.countP (fun p => decide (p.1 = (p.2.correct : Int)))) ∧
      entries.length = l.length ∧
      ∀ i a q, l.get? i = some (a, q) →
        ∃ e, entries.get? i = some e ∧
          e.is_correct = decide (a = (q.correct : Int)) ∧
          e.your_answer = (if 0 ≤ a ∧ a < (q.options.length : Int)
            then q.options.getD a.toNat "" else "Invalid") := by
  induction l with
  | nil =>
    refine ⟨[], rfl, rfl, fun i a q h => ?_⟩
    simp at h
  | cons hd tl ih =>
    obtain ⟨a, q⟩ := hd
    have hq0 : q.correct < q.options.length := hq (a, q) (List.mem_cons_self _ _)
    obtain ⟨entries, hg, hlen, hidx⟩ := ih (fun p hp => hq p (List.mem_cons_of_mem _ hp))
    refine ⟨{ question := q.question,
              your_answer := if 0 ≤ a ∧ a < (q.options.length : Int)
                then q.options.getD a.toNat "" else "Invalid",
              correct_answer := q.options.get ⟨q.correct, hq0⟩,
              is_correct := decide (a = (q.correct : Int)),
              explanation := q.explanation } :: entries, ?_, by simp [hlen], ?_⟩
    · simp only [Training.gradeList, List.get?_eq_get hq0, hg, List.countP_cons]
      simp [Nat.add_comm]
    · intro i a' q' h
      cases i with
      | zero =>
        simp only [List.get?] at h
        rw [Option.some.injEq, Prod.mk.injEq] at h
        obtain ⟨rfl, rfl⟩ := h
        exact ⟨_, rfl, rfl, rfl⟩
      | succ n =>
        simp only [List.get?] at h ⊢
        exact hidx n a' q' h

/-- The success path of `submit_quiz`, explicitly. -/
theorem submit_quiz_ok (st : Training.TrainingState) (mid lid : String)
    (answers : List Int) (uid : String) (lesson : Training.Lesson)
    (entries : List Training.QuizResultEntry) (cnt : Nat)
    (hles : Training.get_lesson st.modules mid lid = some lesson)
    (hlen : answers.length = lesson.quiz.length)
    (hg : Training.gradeList (answers.zip lesson.quiz) = some (entries, cnt)) :
    Training.submit_quiz st mid lid answers uid =
      (.ok { score := Training.scoreOf lesson cnt, correct := cnt,
             total := lesson.quiz.length, results := entries,
             passed := decide (Training.scoreOf lesson cnt ≥ 70) },
       progressAfter st uid (mid ++ "_" ++ lid)
         { score := Training.scoreOf lesson cnt, completed := true }) := by
  have hne : ¬ (answers.length ≠ lesson.quiz.length) := by simp [hlen]
  simp only [Training.submit_quiz, hles]
  rw [if_neg hne]
  simp only [hg]
  rfl

/-- Inversion of the success path of `submit_quiz`. -/
theorem submit_quiz_ok_inv {st : Training.TrainingState} {mid lid : String}
    {answers : List Int} {uid : String} {r : Training.QuizResult}
    {st' : Training.TrainingState}
    (h : Training.submit_quiz st mid lid answers uid = (.ok r, st')) :
    ∃ lesson entries cnt,
      Training.get_lesson st.modules mid lid = some lesson ∧
      answers.length = lesson.quiz.length ∧
      Training.gradeList (answers.zip lesson.quiz) = some (entries, cnt) ∧
      r = { score := Training.scoreOf lesson cnt, correct := cnt,
            total := lesson.quiz.length, results := entries,
            passed := decide (Training.scoreOf lesson cnt ≥ 70) } ∧
      st' = progressAfter st uid (mid ++ "_" ++ lid)
        { score := Training.scoreOf lesson cnt, completed := true } := by
  unfold Training.submit_quiz at h
  split at h
  · simp [Prod.ext_iff] at h
  · rename_i lesson hles
    split at h
    · simp [Prod.ext_iff] at h
    · rename_i hlen
      push_neg at hlen
      split at h
      · simp [Prod.ext_iff] at h
      · rename_i entries cnt hg
        rw [Prod.mk.injEq, Training.SubmitOutcome.ok.injEq] at h
        refine ⟨lesson, entries, cnt, hles, hlen, hg, ?_, ?_⟩
        · rw [← h.1]
          rfl
        · rw [← h.2]
          rfl

/-! ## Claim theorems -/

/-- C9: for every message, `chat` returns identical results under any two
context values (including an absent context): the optional prior-turn
context argument is accepted but never consulted by the response logic. -/
theorem claim_C9 (message : String)
    (c1 c2 : Option (List (List (String × String)))) :
    AIAgent.chat message c1 = AIAgent.chat message c2 := rfl

/-- C3, counterexample: at the claim's own input the computed
`annual_revenue` is 208488.0 — the exact value of 3.5 × 8 × 8760 × 0.85 —
and not the claimed 208824.0; and the claim's for-every-input payback
clause fails at investment = 0, where the source raises `ZeroDivisionError`
while computing `roi_percent` and returns no payback at all. -/
theorem claim_C3_counterexample :
    (∃ r, AIAgent._calculate_roi roiGivenParams = .ok r ∧
      r.annual_revenue = 208488 ∧ r.annual_revenue ≠ 208824) ∧
    (3.5 * 8 * 8760 * 0.85 : ℚ) = 208488 ∧
    AIAgent._calculate_roi ⟨none, none, none, none, some 0, none, none⟩ =
      .error "ZeroDivisionError" := by
  refine ⟨⟨{ investment := 240000, annual_revenue := 208488, annual_costs := 96000,
             annual_profit := 112488, roi_percent := 112488 / 240000 * 100,
             payback_months := .months (240000 / 112488 * 12) },
           ?_, by norm_num, by norm_num⟩, by norm_num, ?_⟩
  · norm_num [AIAgent._calculate_roi, roiGivenParams, Option.getD]
  · norm_num [AIAgent._calculate_roi, Option.getD]

/-- C3, amended: at the given input computeRoi returns with
annual_revenue = 208488.0 (= 3.5 × 8 × 8760 × 0.85), annual_cost = 96000.0
(investment × 0.4), roi_percent = annual_profit / investment × 100; for
every input on which computeRoi returns a result, the infinite-payback
sentinel is returned exactly when annual_profit ≤ 0, otherwise
payback_months = investment / annual_profit × 12; and at zero (defaulted)
investment it raises `ZeroDivisionError` instead of returning. -/
theorem claim_C3 :
    (∃ r, AIAgent._calculate_roi roiGivenParams = .ok r ∧
      r.annual_revenue = 3.5 * 8 * 8760 * 0.85 ∧
      r.annual_revenue = 208488 ∧
      r.annual_costs = 240000 * 0.4 ∧
      r.annual_costs = 96000 ∧
      r.roi_percent = r.annual_profit / 240000 * 100) ∧
    (∀ (p : AIAgent.ScenarioParams) (r : AIAgent.RoiResult),
      AIAgent._calculate_roi p = .ok r →
      ((r.payback_months = .infinite ↔ r.annual_profit ≤ 0) ∧
       (r.annual_profit > 0 →
         r.payback_months = .months (r.investment / r.annual_profit * 12)))) ∧
    (∀ p : AIAgent.ScenarioParams, p.investment.getD 240000 = 0 →
      AIAgent._calculate_roi p = .error "ZeroDivisionError") := by
  refine ⟨⟨{ investment := 240000, annual_revenue := 208488, annual_costs := 96000,
             annual_profit := 112488, roi_percent := 112488 / 240000 * 100,
             payback_months := .months (240000 / 112488 * 12) },
           by norm_num [AIAgent._calculate_roi, roiGivenParams, Option.getD],
           by norm_num, by norm_num, by norm_num, by norm_num, by norm_num⟩,
          ?_, ?_⟩
  · intro p r h
    unfold AIAgent._calculate_roi at h
    by_cases hz : p.investment.getD 240000 = 0
    · rw [if_pos hz] at h
      exact Except.noConfusion h
    · rw [if_neg hz] at h
      injection h with h
      have key : r.payback_months =
          if r.annual_profit > 0 then
            AIAgent.Payback.months (r.investment / r.annual_profit * 12)
          else AIAgent.Payback.infinite := by
        rw [← h]
      by_cases h2 : r.annual_profit > 0
      · rw [key, if_pos h2]
        exact ⟨⟨fun hh => AIAgent.Payback.noConfusion hh,
          fun hle => absurd h2 (not_lt.mpr hle)⟩, fun _ => rfl⟩
      · rw [key, if_neg h2]
        exact ⟨⟨fun _ => not_lt.mp h2, fun _ => rfl⟩, fun hpos => absurd hpos h2⟩
  · intro p hz
    unfold AIAgent._calculate_roi
    rw [if_pos hz]

/-- C3 witness: the amended theorem applied at the all-default input, where
the call returns, annual_profit = 112488 > 0, and the finite payback
formula is produced. -/
theorem claim_C3_witness :
    ∃ r, AIAgent._calculate_roi AIAgent.noParams = .ok r ∧
      r.payback_months = .months (r.investment / r.annual_profit * 12) := by
  have hok : AIAgent._calculate_roi AIAgent.noParams = .ok
      { investment := 240000, annual_revenue := 208488, annual_costs := 96000,
        annual_profit := 112488, roi_percent := 112488 / 240000 * 100,
        payback_months := .months (240000 / 112488 * 12) } := by
    norm_num [AIAgent._calculate_roi, AIAgent.noParams, Option.getD]
  exact ⟨_, hok, (claim_C3.2.1 AIAgent.noParams _ hok).2 (by norm_num)⟩

/-- C5, counterexample: the classifier does substring matching, not
token-membership matching — on `"costume"` the source classifier fires the
tco keyword `"cost"` although no whitespace token of the message belongs to
any keyword set. -/
theorem claim_C5_counterexample :
    AIAgent._analyze_intent "costume" = "tco_calculation" ∧
    AIAgent.intent_by_token_membership "costume" = "general" ∧
    AIAgent._analyze_intent "costume" ≠ AIAgent.intent_by_token_membership "costume" := by
  decide

/-- C5, amended: the classifier is a pure deterministic function that
lower-cases its input and tests each keyword of five fixed sets for
occurrence as a substring of the message, first matching set winning in the
priority order tco → comparison → market → neocloud → general; the five
example messages classify as claimed. -/
theorem claim_C5 :
    (∀ m, AIAgent._analyze_intent m = AIAgent.intent_by_substring m) ∧
    AIAgent._analyze_intent "What's the TCO for 8 GPUs?" = "tco_calculation" ∧
    AIAgent._analyze_intent "Compare H100 vs MI300X" = "gpu_comparison" ∧
    AIAgent._analyze_intent "NVDA stock price" = "market_data" ∧
    AIAgent._analyze_intent "Tell me about CoreWeave" = "neocloud_analysis" ∧
    AIAgent._analyze_intent "Hello" = "general" :=
  ⟨fun _ => rfl, by decide, by decide, by decide, by decide, by decide⟩

/-- C4: for every parameter dictionary whose (defaulted) gpuCount and years
are at least 1, the tco scenario returns the capex / power / maintenance /
total / cost-per-gpu-hour formulas of the spec, the division's denominator
being nonzero under these preconditions. -/
theorem claim_C4 (p : AIAgent.ScenarioParams)
    (hn : 1 ≤ p.num_gpus.getD 8) (hy : 1 ≤ p.years.getD 3) :
    ∃ t : AIAgent.TcoResult, AIAgent.run_scenario "tco" p = .ok (.tco t) ∧
      t.capex = AIAgent.gpu_price_of p * p.num_gpus.getD 8 ∧
      t.annual_power = (AIAgent.tdp_of p * p.num_gpus.getD 8 * 8760 * 1.3 / 1000) *
        p.power_rate.getD 0.08 ∧
      t.annual_maintenance = t.capex * 0.08 ∧
      t.total_tco = t.capex + (t.annual_power + t.annual_maintenance) * p.years.getD 3 ∧
      p.num_gpus.getD 8 * 8760 * p.years.getD 3 ≠ 0 ∧
      t.tco_per_gpu_hour = t.total_tco / (p.num_gpus.getD 8 * 8760 * p.years.getD 3) := by
  have hn0 : (0 : ℚ) < p.num_gpus.getD 8 := lt_of_lt_of_le one_pos hn
  have hy0 : (0 : ℚ) < p.years.getD 3 := lt_of_lt_of_le one_pos hy
  have hden : p.num_gpus.getD 8 * 8760 * p.years.getD 3 ≠ 0 :=
    ne_of_gt (mul_pos (mul_pos hn0 (by norm_num)) hy0)
  cases hcalc : AIAgent._calculate_custom_tco p with
  | error e =>
    exfalso
    unfold AIAgent._calculate_custom_tco at hcalc
    rw [if_neg hden] at hcalc
    exact Except.noConfusion hcalc
  | ok t =>
    have ht := hcalc
    unfold AIAgent._calculate_custom_tco at ht
    rw [if_neg hden] at ht
    injection ht with ht
    refine ⟨t, ?_, ?_, ?_, ?_, ?_, hden, ?_⟩
    · unfold AIAgent.run_scenario
      rw [if_pos rfl, hcalc]
      rfl
    · rw [← ht]
    · rw [← ht]
    · rw [← ht]
    · rw [← ht]
    · rw [← ht]

/-- C4 witness: the theorem applied at the all-default parameters
(gpuCount 8, years 3). -/
theorem claim_C4_witness :
    ∃ t : AIAgent.TcoResult, AIAgent.run_scenario "tco" AIAgent.noParams = .ok (.tco t) ∧
      t.capex = AIAgent.gpu_price_of AIAgent.noParams * (AIAgent.noParams).num_gpus.getD 8 ∧
      t.annual_power = (AIAgent.tdp_of AIAgent.noParams *
        (AIAgent.noParams).num_gpus.getD 8 * 8760 * 1.3 / 1000) *
        (AIAgent.noParams).power_rate.getD 0.08 ∧
      t.annual_maintenance = t.capex * 0.08 ∧
      t.total_tco = t.capex + (t.annual_power + t.annual_maintenance) *
        (AIAgent.noParams).years.getD 3 ∧
      (AIAgent.noParams).num_gpus.getD 8 * 8760 * (AIAgent.noParams).years.getD 3 ≠ 0 ∧
      t.tco_per_gpu_hour = t.total_tco /
        ((AIAgent.noParams).num_gpus.getD 8 * 8760 * (AIAgent.noParams).years.getD 3) :=
  claim_C4 AIAgent.noParams (by decide) (by decide)

/-- C7, counterexample: the claim's unconditional non-failure is false —
at gpuType "RTX6000" (absent from the knowledge base) with gpuCount 0 the
source raises `ZeroDivisionError` in the final cost-per-gpu-hour division
and returns no result. -/
theorem claim_C7_counterexample :
    lookupA AIAgent.gpu_architectures "RTX6000" = none ∧
    AIAgent.run_scenario "tco"
      ⟨some "RTX6000", some 0, none, none, none, none, none⟩ =
      .error "ZeroDivisionError" := by
  refine ⟨by decide, ?_⟩
  unfold AIAgent.run_scenario
  rw [if_pos rfl]
  unfold AIAgent._calculate_custom_tco
  rw [if_pos (by norm_num [Option.getD])]
  rfl

/-- C7, amended: for every parameter dictionary whose gpuType is absent
from the knowledge base and which satisfies the documented preconditions
gpuCount ≥ 1 and years ≥ 1 (defaults apply when absent), the tco scenario
does not fail: it substitutes the default spec (price 30000 USD, TDP 700 W)
and computes the result with those defaults. -/
theorem claim_C7 (p : AIAgent.ScenarioParams)
    (h : lookupA AIAgent.gpu_architectures (p.gpu_type.getD "H100") = none)
    (hn : 1 ≤ p.num_gpus.getD 8) (hy : 1 ≤ p.years.getD 3) :
    ∃ t : AIAgent.TcoResult, AIAgent.run_scenario "tco" p = .ok (.tco t) ∧
      t.gpu_type = p.gpu_type.getD "H100" ∧
      t.capex = 30000 * p.num_gpus.getD 8 ∧
      t.annual_power = (700 * p.num_gpus.getD 8 * 8760 * 1.3 / 1000) *
        p.power_rate.getD 0.08 ∧
      t.annual_maintenance = t.capex * 0.08 ∧
      t.total_tco = t.capex + (t.annual_power + t.annual_maintenance) * p.years.getD 3 ∧
      t.tco_per_gpu_hour = t.total_tco /
        (p.num_gpus.getD 8 * 8760 * p.years.getD 3) := by
  have hp : AIAgent.gpu_price_of p = 30000 := by
    unfold AIAgent.gpu_price_of
    rw [h]
    rfl
  have htdp : AIAgent.tdp_of p = 700 := by
    unfold AIAgent.tdp_of
    rw [h]
    rfl
  have hn0 : (0 : ℚ) < p.num_gpus.getD 8 := lt_of_lt_of_le one_pos hn
  have hy0 : (0 : ℚ) < p.years.getD 3 := lt_of_lt_of_le one_pos hy
  have hden : p.num_gpus.getD 8 * 8760 * p.years.getD 3 ≠ 0 :=
    ne_of_gt (mul_pos (mul_pos hn0 (by norm_num)) hy0)
  cases hcalc : AIAgent._calculate_custom_tco p with
  | error e =>
    exfalso
    unfold AIAgent._calculate_custom_tco at hcalc
    rw [if_neg hden] at hcalc
    exact Except.noConfusion hcalc
  | ok t =>
    have ht := hcalc
    unfold AIAgent._calculate_custom_tco at ht
    rw [if_neg hden] at ht
    injection ht with ht
    refine ⟨t, ?_, ?_, ?_, ?_, ?_, ?_, ?_⟩
    · unfold AIAgent.run_scenario
      rw [if_pos rfl, hcalc]
      rfl
    · rw [← ht]
    · rw [← ht]
      show AIAgent.gpu_price_of p * _ = _
      rw [hp]
    · rw [← ht]
      show (AIAgent.tdp_of p * _ * _ * _ / _) * _ = _
      rw [htdp]
    · rw [← ht]
    · rw [← ht]
    · rw [← ht]

/-- C7 witness: the amended theorem applied at an unknown GPU type with the
default gpuCount 8 and years 3. -/
theorem claim_C7_witness :
    ∃ t : AIAgent.TcoResult,
      AIAgent.run_scenario "tco"
        ⟨some "RTX6000", none, none, none, none, none, none⟩ = .ok (.tco t) ∧
      t.gpu_type = "RTX6000" ∧
      t.capex = 30000 * 8 ∧
      t.annual_power = (700 * 8 * 8760 * 1.3 / 1000) * 0.08 ∧
      t.annual_maintenance = t.capex * 0.08 ∧
      t.total_tco = t.capex + (t.annual_power + t.annual_maintenance) * 3 ∧
      t.tco_per_gpu_hour = t.total_tco / (8 * 8760 * 3) :=
  claim_C7 ⟨some "RTX6000", none, none, none, none, none, none⟩ (by decide)
    (by decide) (by decide)

/-- C8: whenever the market-data service is disconnected, both
`get_reference_data` and `get_historical_data` fail with the NotConnected
error; whenever it is connected, neither can fail with NotConnected. -/
theorem claim_C8 (s : Bloomberg.BloombergService) (secs flds : List String)
    (sec : String) (hflds : List String) (sd ed : String) :
    (Bloomberg.is_connected s = false →
      Bloomberg.get_reference_data s secs flds = .notConnected ∧
      Bloomberg.get_historical_data s sec hflds sd ed = .notConnected) ∧
    (Bloomberg.is_connected s = true →
      Bloomberg.get_reference_data s secs flds ≠ .notConnected ∧
      Bloomberg.get_historical_data s sec hflds sd ed ≠ .notConnected) := by
  constructor
  · intro h
    replace h : s.connected = false := h
    unfold Bloomberg.get_reference_data Bloomberg.get_historical_data
    rw [h]
    exact ⟨rfl, rfl⟩
  · intro h
    replace h : s.connected = true := h
    constructor
    · unfold Bloomberg.get_reference_data
      rw [h]
      cases s.live with
      | none => simp
      | some feed => cases hfd : feed.refData secs flds <;> simp [hfd]
    · unfold Bloomberg.get_historical_data
      rw [h]
      cases s.live with
      | none =>
        cases hm : Bloomberg._get_mock_historical_data s.rng sec hflds sd ed <;> simp [hm]
      | some feed => cases hfd : feed.histData sec hflds sd ed <;> simp [hfd]

/-- C8 witness: the theorem applied to a disconnected mock-mode service and
to the same service after `connect()`. -/
theorem claim_C8_witness :
    (Bloomberg.get_reference_data Bloomberg.mockDisconnected
      ["NVDA US Equity"] ["PX_LAST"] = .notConnected) ∧
    (Bloomberg.get_historical_data Bloomberg.mockDisconnected
      "NVDA US Equity" ["PX_LAST"] "20240101" "20240105" = .notConnected) ∧
    (Bloomberg.get_reference_data Bloomberg.mockConnected
      ["NVDA US Equity"] ["PX_LAST"] ≠ .notConnected) ∧
    (Bloomberg.get_historical_data Bloomberg.mockConnected
      "NVDA US Equity" ["PX_LAST"] "20240101" "20240105" ≠ .notConnected) := by
  have h1 := (claim_C8 Bloomberg.mockDisconnected ["NVDA US Equity"] ["PX_LAST"]
    "NVDA US Equity" ["PX_LAST"] "20240101" "20240105").1 rfl
  have h2 := (claim_C8 Bloomberg.mockConnected ["NVDA US Equity"] ["PX_LAST"]
    "NVDA US Equity" ["PX_LAST"] "20240101" "20240105").2 rfl
  exact ⟨h1.1, h1.2, h2.1, h2.2⟩


/-- C1: for every submission that passes validation (lesson resolves and the
answer count matches) on a well-formed quiz, `submit_quiz` returns
score = 100 × (correct_count / total_questions) (0 for an empty quiz, which
hence never passes) and passed = (score ≥ 70); every submitted answer index
outside [0, number of options) is counted incorrect and rendered with the
label "Invalid" rather than raising. -/
theorem claim_C1 (st : Training.TrainingState) (module_id lesson_id : String)
    (answers : List Int) (user_id : String) (lesson : Training.Lesson)
    (hles : Training.get_lesson st.modules module_id lesson_id = some lesson)
    (hlen : answers.length = lesson.quiz.length)
    (hwf : ∀ q ∈ lesson.quiz, q.correct < q.options.length) :
    ∃ r : Training.QuizResult,
      (Training.submit_quiz st module_id lesson_id answers user_id).1 = .ok r ∧
      r.total = lesson.quiz.length ∧
      r.correct =
        (answers.zip lesson.quiz).countP (fun p => decide (p.1 = (p.2.correct : Int))) ∧
      r.score = (if lesson.quiz.length = 0 then 0
        else 100 * ((r.correct : ℚ) / (lesson.quiz.length : ℚ))) ∧
      r.passed = decide (r.score ≥ 70) ∧
      (lesson.quiz.length = 0 → r.score = 0 ∧ r.passed = false) ∧
      (∀ i a q, answers.get? i = some a → lesson.quiz.get? i = some q →
        ¬ (0 ≤ a ∧ a < (q.options.length : Int)) →
        ∃ e, r.results.get? i = some e ∧ e.is_correct = false ∧
          e.your_answer = "Invalid") := by
  have hwfz : ∀ pr ∈ answers.zip lesson.quiz, pr.2.correct < pr.2.options.length :=
    fun pr hpr => hwf pr.2 (List.of_mem_zip hpr).2
  obtain ⟨entries, hg, hlenE, hidx⟩ := gradeList_spec (answers.zip lesson.quiz) hwfz
  have hsub := submit_quiz_ok st module_id lesson_id answers user_id lesson entries _
    hles hlen hg
  have hscore : Training.scoreOf lesson
      ((answers.zip lesson.quiz).countP (fun p => decide (p.1 = (p.2.correct : Int)))) =
      (if lesson.quiz.length = 0 then (0 : ℚ)
        else 100 * ((((answers.zip lesson.quiz).countP
          (fun p => decide (p.1 = (p.2.correct : Int)))) : ℚ) / (lesson.quiz.length : ℚ))) := by
    unfold Training.scoreOf
    by_cases h0 : lesson.quiz.length = 0
    · simp [h0, List.isEmpty_iff_length_eq_zero]
    · simp only [List.isEmpty_iff_length_eq_zero, h0, if_false]
      exact mul_comm _ 100
  refine ⟨_, by rw [hsub], rfl, rfl, hscore, rfl, ?_, ?_⟩
  · intro h0
    have hie : lesson.quiz.isEmpty = true := List.isEmpty_iff_length_eq_zero.mpr h0
    have hs0 : Training.scoreOf lesson
        ((answers.zip lesson.quiz).countP (fun p => decide (p.1 = (p.2.correct : Int)))) = 0 := by
      unfold Training.scoreOf
      rw [if_pos hie]
    refine ⟨hs0, ?_⟩
    show decide (Training.scoreOf lesson _ ≥ 70) = false
    rw [hs0, decide_eq_false_iff_not]
    norm_num
  · intro i a q ha hq hout
    have hz : (answers.zip lesson.quiz).get? i = some (a, q) :=
      (List.get?_zip_eq_some answers lesson.quiz (a, q) i).mpr ⟨ha, hq⟩
    obtain ⟨e, he, hic, hya⟩ := hidx i a q hz
    refine ⟨e, he, ?_, ?_⟩
    · rw [hic, decide_eq_false_iff_not]
      intro heq
      apply hout
      have hqwf : q.correct < q.options.length := hwf q (List.get?_mem hq)
      subst heq
      exact ⟨Int.natCast_nonneg _, by exact_mod_cast hqwf⟩
    · rw [hya, if_neg hout]

/-- C1 witness: submitting `[1, 5]` for lesson `gpu_1` (first answer
correct, second out of range) passes validation and yields the asserted
score, pass flag and "Invalid" rendering. -/
theorem claim_C1_witness :
    ∃ r : Training.QuizResult,
      (Training.submit_quiz Training.initialState "gpu_fundamentals" "gpu_1"
        [1, 5] "student").1 = .ok r ∧
      r.total = Training.gpu_1_lesson.quiz.length ∧
      r.correct = ([(1 : Int), 5].zip Training.gpu_1_lesson.quiz).countP
        (fun p => decide (p.1 = (p.2.correct : Int))) ∧
      r.score = (if Training.gpu_1_lesson.quiz.length = 0 then 0
        else 100 * ((r.correct : ℚ) / (Training.gpu_1_lesson.quiz.length : ℚ))) ∧
      r.passed = decide (r.score ≥ 70) ∧
      (Training.gpu_1_lesson.quiz.length = 0 → r.score = 0 ∧ r.passed = false) ∧
      (∀ i a q, [(1 : Int), 5].get? i = some a →
        Training.gpu_1_lesson.quiz.get? i = some q →
        ¬ (0 ≤ a ∧ a < (q.options.length : Int)) →
        ∃ e, r.results.get? i = some e ∧ e.is_correct = false ∧
          e.your_answer = "Invalid") :=
  claim_C1 Training.initialState "gpu_fundamentals" "gpu_1" [1, 5] "student"
    Training.gpu_1_lesson rfl rfl (by decide)

/-- C10: when `submit_quiz` fails (unresolved module or lesson, or answer
count mismatch) the user-progress state is left completely unchanged. -/
theorem claim_C10 (st : Training.TrainingState) (module_id lesson_id : String)
    (answers : List Int) (user_id : String) (out : Training.SubmitOutcome)
    (st' : Training.TrainingState)
    (h : Training.submit_quiz st module_id lesson_id answers user_id = (out, st'))
    (herr : out = .lessonNotFound ∨ out = .answerCountMismatch) : st' = st := by
  unfold Training.submit_quiz at h
  split at h
  · rw [Prod.mk.injEq] at h
    exact h.2.symm
  · split at h
    · rw [Prod.mk.injEq] at h
      exact h.2.symm
    · split at h
      · rw [Prod.mk.injEq] at h
        exact h.2.symm
      · rw [Prod.mk.injEq] at h
        rcases herr with he | he <;>
          exact absurd (h.1.trans he) (fun hh => Training.SubmitOutcome.noConfusion hh)

/-- C10 witness: a submission against a missing module fails and leaves the
initial state untouched. -/
theorem claim_C10_witness :
    (Training.submit_quiz Training.initialState "no_such_module" "gpu_1"
      [] "student").2 = Training.initialState :=
  claim_C10 Training.initialState "no_such_module" "gpu_1" [] "student"
    .lessonNotFound
    (Training.submit_quiz Training.initialState "no_such_module" "gpu_1" [] "student").2
    rfl (Or.inl rfl)

/-- C6: against the initialised catalog, `submit_quiz` fails with the
lesson-not-found error exactly when the module or lesson id does not
resolve, fails with the answer-count-mismatch error exactly when the lesson
resolves but the answer count differs from the quiz length, and has no
other failure mode (the modelled index exception never occurs). -/
theorem claim_C6 (module_id lesson_id : String) (answers : List Int) (user_id : String)
    (progress : List (String × List (String × Training.ProgressEntry))) :
    ((Training.submit_quiz ⟨Training.trainingModules, progress⟩ module_id lesson_id
        answers user_id).1 = .lessonNotFound ↔
      Training.get_lesson Training.trainingModules module_id lesson_id = none) ∧
    (∀ lesson, Training.get_lesson Training.trainingModules module_id lesson_id =
        some lesson →
      ((Training.submit_quiz ⟨Training.trainingModules, progress⟩ module_id lesson_id
          answers user_id).1 = .answerCountMismatch ↔
        answers.length ≠ lesson.quiz.length)) ∧
    (Training.submit_quiz ⟨Training.trainingModules, progress⟩ module_id lesson_id
        answers user_id).1 ≠ .indexError := by
  cases hles : Training.get_lesson Training.trainingModules module_id lesson_id with
  | none =>
    have hout : (Training.submit_quiz ⟨Training.trainingModules, progress⟩ module_id
        lesson_id answers user_id).1 = .lessonNotFound := by
      simp only [Training.submit_quiz, hles]
    refine ⟨?_, ?_, ?_⟩
    · rw [hout]
      simp
    · intro lesson hl
      simp at hl
    · rw [hout]
      simp
  | some lesson =>
    have hwfl : ∀ q ∈ lesson.quiz, q.correct < q.options.length := by
      obtain ⟨m, hmem, hlm⟩ := get_lesson_mem hles
      exact fun q hq => catalog_wf (module_id, m) hmem lesson hlm q hq
    by_cases hlen : answers.length = lesson.quiz.length
    · obtain ⟨entries, hg, -, -⟩ := gradeList_spec (answers.zip lesson.quiz)
        (fun pr hpr => hwfl pr.2 (List.of_mem_zip hpr).2)
      have hsub := submit_quiz_ok ⟨Training.trainingModules, progress⟩ module_id
        lesson_id answers user_id lesson entries _ hles hlen hg
      refine ⟨?_, ?_, ?_⟩
      · rw [hsub]
        simp [hles]
      · intro lesson' hl'
        injection hl' with hl'
        subst hl'
        rw [hsub]
        simp [hlen]
      · rw [hsub]
        simp
    · have hout : (Training.submit_quiz ⟨Training.trainingModules, progress⟩ module_id
          lesson_id answers user_id).1 = .answerCountMismatch := by
        simp only [Training.submit_quiz, hles]
        rw [if_pos hlen]
      refine ⟨?_, ?_, ?_⟩
      · rw [hout]
        simp [hles]
      · intro lesson' hl'
        injection hl' with hl'
        subst hl'
        rw [hout]
        simp [hlen]
      · rw [hout]
        simp
  
/-- C6 witness: one too few answers for lesson `gpu_1` (two questions)
fails with the answer-count-mismatch error. -/
theorem claim_C6_witness :
    (Training.submit_quiz ⟨Training.trainingModules, []⟩ "gpu_fundamentals" "gpu_1"
      [0] "student").1 = .answerCountMismatch :=
  ((claim_C6 "gpu_fundamentals" "gpu_1" [0] "student" []).2.1
    Training.gpu_1_lesson rfl).mpr (by decide)

/-- C2: at most one attempt is stored per (user, module, lesson): a second
successful submission for the same key overwrites the stored entry with the
latest score, the user's progress map does not grow, and
`get_user_progress` reports exactly that map. -/
theorem claim_C2 (st : Training.TrainingState) (user_id module_id lesson_id : String)
    (a1 a2 : List Int) (r1 r2 : Training.QuizResult) (st1 st2 : Training.TrainingState)
    (h1 : Training.submit_quiz st module_id lesson_id a1 user_id = (.ok r1, st1))
    (h2 : Training.submit_quiz st1 module_id lesson_id a2 user_id = (.ok r2, st2)) :
    lookupA ((lookupA st2.user_progress user_id).getD [])
        (module_id ++ "_" ++ lesson_id) = some ⟨r2.score, true⟩ ∧
    ((lookupA st2.user_progress user_id).getD []).length =
      ((lookupA st1.user_progress user_id).getD []).length ∧
    (Training.get_user_progress st2 user_id).lesson_details =
      (lookupA st2.user_progress user_id).getD [] := by
  obtain ⟨lesson, entries, cnt, hles, hlen, hg, hr1, hst1⟩ := submit_quiz_ok_inv h1
  obtain ⟨lesson', entries', cnt', hles', hlen', hg', hr2, hst2⟩ := submit_quiz_ok_inv h2
  have hup1 : st1.user_progress =
      insertA st.user_progress user_id
        (insertA ((lookupA st.user_progress user_id).getD [])
          (module_id ++ "_" ++ lesson_id) ⟨Training.scoreOf lesson cnt, true⟩) := by
    rw [hst1]
    rfl
  have hup2 : st2.user_progress =
      insertA st1.user_progress user_id
        (insertA ((lookupA st1.user_progress user_id).getD [])
          (module_id ++ "_" ++ lesson_id) ⟨Training.scoreOf lesson' cnt', true⟩) := by
    rw [hst2]
    rfl
  have hm1 : (lookupA st1.user_progress user_id).getD [] =
      insertA ((lookupA st.user_progress user_id).getD [])
        (module_id ++ "_" ++ lesson_id) ⟨Training.scoreOf lesson cnt, true⟩ := by
    rw [hup1, lookupA_insertA_self]
    rfl
  have hm2 : (lookupA st2.user_progress user_id).getD [] =
      insertA ((lookupA st1.user_progress user_id).getD [])
        (module_id ++ "_" ++ lesson_id) ⟨Training.scoreOf lesson' cnt', true⟩ := by
    rw [hup2, lookupA_insertA_self]
    rfl
  have hkey : lookupA ((lookupA st1.user_progress user_id).getD [])
      (module_id ++ "_" ++ lesson_id) = some ⟨Training.scoreOf lesson cnt, true⟩ := by
    rw [hm1, lookupA_insertA_self]
  refine ⟨?_, ?_, rfl⟩
  · rw [hm2, lookupA_insertA_self, hr2]
  · rw [hm2]
    exact insertA_length_of_mem _ _ _ _ hkey

/-- C2 witness: an all-correct submission for `gpu_1` scores 100 and
passes; resubmitting all-wrong answers overwrites the stored attempt to a
score of 0 that does not pass. -/
theorem claim_C2_witness :
    ∃ (r1 r2 : Training.QuizResult) (st1 st2 : Training.TrainingState),
      Training.submit_quiz Training.initialState "gpu_fundamentals" "gpu_1"
        [1, 2] "default" = (.ok r1, st1) ∧
      Training.submit_quiz st1 "gpu_fundamentals" "gpu_1" [0, 0] "default" =
        (.ok r2, st2) ∧
      r1.score = 100 ∧ r1.passed = true ∧ r2.score = 0 ∧ r2.passed = false ∧
      lookupA ((lookupA st2.user_progress "default").getD [])
        "gpu_fundamentals_gpu_1" = some ⟨r2.score, true⟩ := by
  refine ⟨_, _, _, _, rfl, rfl, ?_, ?_, ?_, ?_,
    (claim_C2 Training.initialState "default" "gpu_fundamentals" "gpu_1"
      [1, 2] [0, 0] _ _ _ _ rfl rfl).1⟩
  · norm_num [Training.scoreOf, Training.gpu_1_lesson]
  · simp only [decide_eq_true_eq]
    norm_num [Training.scoreOf, Training.gpu_1_lesson]
  · norm_num [Training.scoreOf, Training.gpu_1_lesson]
  · simp only [decide_eq_false_iff_not]
    norm_num [Training.scoreOf, Training.gpu_1_lesson]
